import Mathlib

/-!
Verification of the live-session engine of the Jojotv repository
(`src/hooks/useLiveSession.ts`, `src/types.ts`).

The stateful React hook is embedded shallowly: the hook's refs and state
(`connectionState`, `logs`, `volumeLevel`, `errorMessage`, `nextStartTimeRef`,
`audioSourcesRef`, the two transcription buffers, and the shared `SystemState`)
are gathered into one `SessionState` record, and each callback of the hook
(`executeTool`, the `onmessage` branches, `onopen`/`onclose`/`onerror`,
`connect`'s synchronous prefix and catch branch, `disconnect`) becomes a pure
function on that record.  JavaScript numbers are modelled as rationals (ℚ);
`Int16Array` element conversion is modelled by explicit truncation toward zero
followed by a signed 16-bit wrap.  `new Date()` timestamps on log entries are
data from an external clock and are elided from `LogMessage`.
-/

/-- `ConnectionState` from `src/types.ts`. -/
inductive ConnectionState where
  | DISCONNECTED
  | CONNECTING
  | CONNECTED
  | ERROR
deriving DecidableEq, Repr

/-- The role tag of a log entry (`'user' | 'model' | 'system'` in `src/types.ts`). -/
inductive Role where
  | user
  | model
  | system
deriving DecidableEq, Repr

/-- `LogMessage` from `src/types.ts`; the `timestamp: Date` field is external-clock
data and is elided. -/
structure LogMessage where
  role : Role
  text : String
deriving DecidableEq, Repr

/-- `SystemState` from `src/types.ts` (the simulated device state). -/
structure SystemState where
  brightness : ℚ
  flashlight : Bool
  batteryLevel : ℚ
  wifi : Bool
  bluetooth : Bool
  volume : ℚ
  activeApp : Option String
deriving DecidableEq, Repr

/-- The dynamic `args` object of a tool call.  The three properties accessed by
`executeTool` (`level`, `state`, `appName`) are modelled as fields; a call whose
JSON object lacks a field corresponds to a default value here. -/
structure ToolArgs where
  level : ℚ := 0
  state : Bool := false
  appName : String := ""
deriving DecidableEq, Repr

/-- The JSON value produced by `executeTool` as `result`:
`{ status: s }`, `{ level: n }`, or the initial `{ success: true }`. -/
inductive ToolResult where
  | statusMsg (s : String)
  | batteryLevel (n : ℚ)
  | genericSuccess
deriving DecidableEq, Repr

/-- The JSON value placed in a function response's `response` field.
`wrapped r` is the object `{ result: r }` that the code builds at
`useLiveSession.ts:292`; `bare r` is the value `r` used directly (the shape the
spec's scenario in §8 describes). -/
inductive ResponseVal where
  | wrapped (r : ToolResult)
  | bare (r : ToolResult)
deriving DecidableEq, Repr

/-- One element of `message.toolCall.functionCalls`. -/
structure FunctionCall where
  id : String
  name : String
  args : ToolArgs
deriving DecidableEq, Repr

/-- One element of the outbound `functionResponses` batch. -/
structure FunctionResponse where
  id : String
  name : String
  response : ResponseVal
deriving DecidableEq, Repr

/-- Outcome of the `navigator.getBattery` interaction inside `checkBattery`:
the API is absent, the query resolves with a level in [0,1], or the query
throws. -/
inductive SensorOutcome where
  | unavailable
  | reading (level : ℚ)
  | failure
deriving DecidableEq, Repr

/-- The mutable state of the hook `useLiveSession`: its React state and refs.
`activeSources` models `audioSourcesRef` (a `Set` of source nodes, in insertion
order, identified here by numeric ids). -/
structure SessionState where
  connectionState : ConnectionState
  logs : List LogMessage
  volumeLevel : ℚ
  errorMessage : Option String
  nextStartTime : ℚ
  activeSources : List Nat
  currentInputTranscription : String
  currentOutputTranscription : String
  systemState : SystemState
deriving DecidableEq, Repr

/-- `addLog` (`useLiveSession.ts:105`): append one entry to the log sequence. -/
def addLog (role : Role) (text : String) (logs : List LogMessage) : List LogMessage :=
  logs ++ [{ role := role, text := text }]

/-- `Math.round` of JavaScript: round half toward positive infinity. -/
def jsRound (q : ℚ) : ℤ := ⌊q + 1/2⌋

/-- `executeTool` (`useLiveSession.ts:109-146`).  Returns the updated session
state and the `result` value.  The two `addLog('system', ...)` calls around the
dispatch are kept; the `JSON.stringify` renderings of `args` and `result`
inside the log text are elided (they are external string formatting). -/
def executeTool (sensor : SensorOutcome) (name : String) (args : ToolArgs)
    (st : SessionState) : SessionState × ToolResult :=
  let st := { st with logs := addLog .system ("> Executing: " ++ name) st.logs }
  let (sys, result) :=
    if name = "setBrightness" then
      ({ st.systemState with brightness := args.level },
       ToolResult.statusMsg ("Brightness set to " ++ toString args.level ++ "%"))
    else if name = "toggleFlashlight" then
      ({ st.systemState with flashlight := args.state },
       ToolResult.statusMsg ("Flashlight turned " ++ (if args.state then "ON" else "OFF")))
    else if name = "toggleWifi" then
      ({ st.systemState with wifi := args.state },
       ToolResult.statusMsg ("Wi-Fi turned " ++ (if args.state then "ON" else "OFF")))
    else if name = "checkBattery" then
      (st.systemState,
       match sensor with
       | .reading level => ToolResult.batteryLevel ((jsRound (level * 100) : ℚ))
       | .unavailable => ToolResult.batteryLevel st.systemState.batteryLevel
       | .failure => ToolResult.batteryLevel st.systemState.batteryLevel)
    else if name = "openApp" then
      ({ st.systemState with activeApp := some args.appName },
       ToolResult.statusMsg ("Opened " ++ args.appName))
    else if name = "goHome" then
      ({ st.systemState with activeApp := none },
       ToolResult.statusMsg "Navigated to Home Screen")
    else
      (st.systemState, ToolResult.genericSuccess)
  ({ st with systemState := sys,
             logs := addLog .system ("< Completed: " ++ name) st.logs }, result)

/-- The `message.toolCall` branch of `onmessage` (`useLiveSession.ts:285-299`):
execute the calls of the batch sequentially in arrival order, awaiting each
before starting the next, accumulating `{id, name, response: {result}}`
entries; one combined `functionResponses` batch is then sent. -/
def handleToolCall (sensor : SensorOutcome) (fcs : List FunctionCall)
    (st : SessionState) : SessionState × List FunctionResponse :=
  match fcs with
  | [] => (st, [])
  | fc :: rest =>
    let (st', result) := executeTool sensor fc.name fc.args st
    let (st'', resps) := handleToolCall sensor rest st'
    (st'', { id := fc.id, name := fc.name, response := .wrapped result } :: resps)

/-- The `inputTranscription` branch of `onmessage` (`useLiveSession.ts:239-242`). -/
def handleInputTranscription (text : String) (st : SessionState) : SessionState :=
  { st with currentInputTranscription := st.currentInputTranscription ++ text }

/-- The `outputTranscription` branch of `onmessage` (`useLiveSession.ts:243-246`). -/
def handleOutputTranscription (text : String) (st : SessionState) : SessionState :=
  { st with currentOutputTranscription := st.currentOutputTranscription ++ text }

/-- The `turnComplete` branch of `onmessage` (`useLiveSession.ts:247-256`):
flush each non-empty transcription buffer (user first, then model) as one log
entry and clear it.  JavaScript truthiness of a string is non-emptiness. -/
def handleTurnComplete (st : SessionState) : SessionState :=
  let st :=
    if st.currentInputTranscription ≠ "" then
      { st with logs := addLog .user st.currentInputTranscription st.logs,
                currentInputTranscription := "" }
    else st
  if st.currentOutputTranscription ≠ "" then
    { st with logs := addLog .model st.currentOutputTranscription st.logs,
              currentOutputTranscription := "" }
  else st

/-- The audio-output branch of `onmessage` (`useLiveSession.ts:259-273`), after
the chunk has been decoded to a buffer of duration `dur`, with the output
clock reading `now` (`outputCtx.currentTime`).  `srcId` identifies the freshly
created source node.  Returns the time passed to `source.start` and the new
state. -/
def scheduleAudioChunk (now dur : ℚ) (srcId : Nat) (st : SessionState) :
    ℚ × SessionState :=
  let start := max st.nextStartTime now
  (start, { st with nextStartTime := start + dur,
                    activeSources := st.activeSources ++ [srcId] })

/-- `source.onended` (`useLiveSession.ts:273`): natural end of playback removes
the source from the set. -/
def onSourceEnded (srcId : Nat) (st : SessionState) : SessionState :=
  { st with activeSources := st.activeSources.filter (fun s => s ≠ srcId) }

/-- A sequence of audio chunks with durations `ds`, all handled while the
output clock reads `now`; sources are numbered from `k`.  Returns the list of
scheduled start times in order and the final state. -/
def scheduleSeq (now : ℚ) (ds : List ℚ) (k : Nat) (st : SessionState) :
    List ℚ × SessionState :=
  match ds with
  | [] => ([], st)
  | d :: rest =>
    let (start, st') := scheduleAudioChunk now d k st
    let (starts, st'') := scheduleSeq now rest (k + 1) st'
    (start :: starts, st'')

/-- The expected gapless start times: `t0, t0+d1, t0+d1+d2, …`. -/
def expectedStarts (t0 : ℚ) (ds : List ℚ) : List ℚ :=
  match ds with
  | [] => []
  | d :: rest => t0 :: expectedStarts (t0 + d) rest

/-- The `interrupted` branch of `onmessage` (`useLiveSession.ts:277-282`):
log, call `stop()` on every source of the set, clear the set, reset the
cursor.  The second component is the list of sources on which `stop()` was
called, in iteration order. -/
def handleInterrupted (st : SessionState) : SessionState × List Nat :=
  let st := { st with logs := addLog .system "Output Interrupted" st.logs }
  ({ st with activeSources := [], nextStartTime := 0 }, st.activeSources)

/-- Truncation of a rational toward zero, as JavaScript's ToIntegerOrInfinity
does on a finite number. -/
def truncQ (q : ℚ) : ℤ := if q < 0 then -(⌊-q⌋) else ⌊q⌋

/-- Conversion of a finite JavaScript number to a signed 16-bit value, as
performed by assignment into an `Int16Array`: truncate toward zero, wrap
modulo 2^16 into [-32768, 32767]. -/
def toInt16 (q : ℚ) : ℤ := (truncQ q + 32768) % 65536 - 32768

/-- One sample of the PCM conversion loop in `onaudioprocess`
(`useLiveSession.ts:216-217`): clamp to [-1,1], scale by 0x8000 if negative
else by 0x7fff, store into the `Int16Array`. -/
def pcmConvertSample (x : ℚ) : ℤ :=
  let s := max (-1) (min 1 x)
  toInt16 (if s < 0 then s * 32768 else s * 32767)

/-- The volume metric of `onaudioprocess` (`useLiveSession.ts:210`) applied to
a frame's root-mean-square value: `min(rms * 5, 1)`. -/
def volumeOfRms (rms : ℚ) : ℚ := min (rms * 5) 1

/-- The synchronous prefix of `connect()` (`useLiveSession.ts:150-151`):
clear the error message and transition to CONNECTING.  No log entry is
appended here. -/
def connectStart (st : SessionState) : SessionState :=
  { st with errorMessage := none, connectionState := .CONNECTING }

/-- The state effects of the `onopen` callback (`useLiveSession.ts:195-197`). -/
def onOpen (st : SessionState) : SessionState :=
  { st with connectionState := .CONNECTED,
            logs := addLog .system "Link Established. System Online." st.logs }

/-- The state effects of the `onclose` callback (`useLiveSession.ts:301-304`). -/
def onClose (st : SessionState) : SessionState :=
  { st with connectionState := .DISCONNECTED,
            logs := addLog .system "Link Terminated." st.logs }

/-- The state effects of the `onerror` callback (`useLiveSession.ts:305-310`),
given the error's message string. -/
def onError (msg : String) (st : SessionState) : SessionState :=
  { st with errorMessage := some ("Network Error: " ++ msg),
            connectionState := .ERROR,
            logs := addLog .system ("Error: " ++ msg) st.logs }

/-- The catch branch of `connect()` (`useLiveSession.ts:316-321`), given the
failure's message string. -/
def connectCatch (msg : String) (st : SessionState) : SessionState :=
  { st with errorMessage := some ("Failed to initialize: " ++ msg),
            connectionState := .ERROR,
            logs := addLog .system ("Init Error: " ++ msg) st.logs }

/-- `disconnect()` (`useLiveSession.ts:324-340`).  The session close, processor
disconnect, media-track stop and audio-context close are calls into external
resources; the hook state itself only gets `connectionState := DISCONNECTED`
and `volumeLevel := 0`. -/
def disconnect (st : SessionState) : SessionState :=
  { st with connectionState := .DISCONNECTED, volumeLevel := 0 }

/-- The six registered tool names of `controlPhoneTools`
(`useLiveSession.ts:7-80`). -/
def registeredToolNames : List String :=
  ["setBrightness", "toggleFlashlight", "toggleWifi", "checkBattery", "openApp", "goHome"]

/-- C2: for every inbound message carrying the interruption flag, handling it
calls `stop()` on exactly the sources currently in the active set (in set
order), leaves the active set empty, and resets `nextStartTime` to 0. -/
theorem interruption_stops_all_clears_set_resets_cursor (st : SessionState) :
    (handleInterrupted st).2 = st.activeSources ∧
    (handleInterrupted st).1.activeSources = [] ∧
    (handleInterrupted st).1.nextStartTime = 0 := by
  refine ⟨rfl, rfl, rfl⟩

/-- Unfolded behaviour of `handleTurnComplete`: the log grows by the non-empty
buffers (user first, then model) and both buffers end empty. -/
theorem handleTurnComplete_spec (st : SessionState) :
    (handleTurnComplete st).logs =
      st.logs
        ++ (if st.currentInputTranscription = "" then []
            else [{ role := .user, text := st.currentInputTranscription }])
        ++ (if st.currentOutputTranscription = "" then []
            else [{ role := .model, text := st.currentOutputTranscription }]) ∧
    (handleTurnComplete st).currentInputTranscription = "" ∧
    (handleTurnComplete st).currentOutputTranscription = "" := by
  unfold handleTurnComplete addLog
  by_cases hin : st.currentInputTranscription = "" <;>
    by_cases hout : st.currentOutputTranscription = "" <;>
    simp [hin, hout]

/-- C6: on turn-complete, a non-empty user buffer is flushed as exactly one
`user`-role entry and a non-empty model buffer as exactly one `model`-role
entry, user before model; both buffers end empty; in particular two empty
buffers append zero entries. -/
theorem turn_complete_flush (st : SessionState) :
    (handleTurnComplete st).logs =
      st.logs
        ++ (if st.currentInputTranscription = "" then []
            else [{ role := .user, text := st.currentInputTranscription }])
        ++ (if st.currentOutputTranscription = "" then []
            else [{ role := .model, text := st.currentOutputTranscription }]) ∧
    (handleTurnComplete st).currentInputTranscription = "" ∧
    (handleTurnComplete st).currentOutputTranscription = "" :=
  handleTurnComplete_spec st

/-- C10: `disconnect()` leaves both transcription buffers and the log sequence
untouched; a turn-complete handled after the disconnect flushes exactly the
text that was buffered before it. -/
theorem disconnect_preserves_buffers_and_logs (st : SessionState) :
    (disconnect st).currentInputTranscription = st.currentInputTranscription ∧
    (disconnect st).currentOutputTranscription = st.currentOutputTranscription ∧
    (disconnect st).logs = st.logs ∧
    (handleTurnComplete (disconnect st)).logs =
      st.logs
        ++ (if st.currentInputTranscription = "" then []
            else [{ role := .user, text := st.currentInputTranscription }])
        ++ (if st.currentOutputTranscription = "" then []
            else [{ role := .model, text := st.currentOutputTranscription }]) := by
  refine ⟨rfl, rfl, rfl, ?_⟩
  have h := (handleTurnComplete_spec (disconnect st)).1
  simpa [disconnect] using h

/-- A concrete idle session state used as explicit input for the scenario and
counterexample theorems. -/
def sampleState : SessionState :=
  { connectionState := .DISCONNECTED
    logs := []
    volumeLevel := 0
    errorMessage := none
    nextStartTime := 0
    activeSources := []
    currentInputTranscription := ""
    currentOutputTranscription := ""
    systemState :=
      { brightness := 80
        flashlight := false
        batteryLevel := 88
        wifi := true
        bluetooth := false
        volume := 50
        activeApp := none } }

/-- C9 counterexample: at the concrete state `sampleState` (DISCONNECTED, empty
log), the DISCONNECTED → CONNECTING transition performed by `connect()`
appends no log entry at all, and the transition to DISCONNECTED performed by
`disconnect()` also appends none — refuting "every ConnectionState transition
appends at least one system-role LogEntry". -/
theorem connecting_and_disconnect_transitions_append_no_log :
    sampleState.connectionState = .DISCONNECTED ∧
    (connectStart sampleState).connectionState = .CONNECTING ∧
    (connectStart sampleState).logs = [] ∧
    (onOpen (connectStart sampleState)).connectionState = .CONNECTED ∧
    (disconnect (onOpen (connectStart sampleState))).connectionState = .DISCONNECTED ∧
    (disconnect (onOpen (connectStart sampleState))).logs =
      (onOpen (connectStart sampleState)).logs := by
  refine ⟨rfl, rfl, rfl, rfl, rfl, rfl⟩

/-- C9 amended: the transitions to CONNECTED (`onopen`), to ERROR (`onerror`
and the `connect()` catch branch) and to DISCONNECTED via the transport
`onclose` callback each append exactly one system-role LogEntry; but the
DISCONNECTED → CONNECTING transition inside `connect()` and the transition to
DISCONNECTED performed by `disconnect()` append none. -/
theorem lifecycle_logging (st : SessionState) (msg : String) :
    ((onOpen st).connectionState = .CONNECTED ∧
      (onOpen st).logs = st.logs ++ [{ role := .system, text := "Link Established. System Online." }]) ∧
    ((onClose st).connectionState = .DISCONNECTED ∧
      (onClose st).logs = st.logs ++ [{ role := .system, text := "Link Terminated." }]) ∧
    ((onError msg st).connectionState = .ERROR ∧
      (onError msg st).logs = st.logs ++ [{ role := .system, text := "Error: " ++ msg }]) ∧
    ((connectCatch msg st).connectionState = .ERROR ∧
      (connectCatch msg st).logs = st.logs ++ [{ role := .system, text := "Init Error: " ++ msg }]) ∧
    ((connectStart st).connectionState = .CONNECTING ∧
      (connectStart st).logs = st.logs) ∧
    ((disconnect st).connectionState = .DISCONNECTED ∧
      (disconnect st).logs = st.logs) := by
  refine ⟨⟨rfl, rfl⟩, ⟨rfl, rfl⟩, ⟨rfl, rfl⟩, ⟨rfl, rfl⟩, ⟨rfl, rfl⟩, ⟨rfl, rfl⟩⟩

/-- C7: executing a tool call whose name is not one of the six registered tools
leaves the device state unchanged and returns the generic success result
`{ success: true }`; it does not raise an error. -/
theorem unknown_tool_is_noop_success (sensor : SensorOutcome) (name : String)
    (args : ToolArgs) (st : SessionState) (h : name ∉ registeredToolNames) :
    (executeTool sensor name args st).1.systemState = st.systemState ∧
    (executeTool sensor name args st).2 = .genericSuccess := by
  simp only [registeredToolNames, List.mem_cons, List.mem_singleton, not_or] at h
  obtain ⟨h1, h2, h3, h4, h5, h6⟩ := h
  simp [executeTool, h1, h2, h3, h4, h5, h6]

/-- Witness for C7 at the concrete unknown name "frobnicate". -/
theorem unknown_tool_is_noop_success_witness :
    (executeTool .unavailable "frobnicate" {} sampleState).1.systemState =
        sampleState.systemState ∧
    (executeTool .unavailable "frobnicate" {} sampleState).2 = .genericSuccess :=
  unknown_tool_is_noop_success .unavailable "frobnicate" {} sampleState (by decide)

/-- C8: `checkBattery` with no live battery sensor, or with a failing sensor
query, returns the cached `batteryLevel` of the device state and leaves the
device state unchanged; the failure is absorbed inside the handler. -/
theorem check_battery_fallback (sensor : SensorOutcome) (args : ToolArgs)
    (st : SessionState) (h : sensor = .unavailable ∨ sensor = .failure) :
    (executeTool sensor "checkBattery" args st).1.systemState = st.systemState ∧
    (executeTool sensor "checkBattery" args st).2 =
      .batteryLevel st.systemState.batteryLevel := by
  rcases h with h | h <;> subst h <;> exact ⟨rfl, rfl⟩

/-- Witness for C8 with the sensor unavailable at a concrete state. -/
theorem check_battery_fallback_witness :
    (executeTool .unavailable "checkBattery" {} sampleState).1.systemState =
        sampleState.systemState ∧
    (executeTool .unavailable "checkBattery" {} sampleState).2 =
      .batteryLevel sampleState.systemState.batteryLevel :=
  check_battery_fallback .unavailable {} sampleState (Or.inl rfl)

/-- C3: a tool-call batch of N requests is executed sequentially in arrival
order — the final device state is the left fold of the individual executions —
and produces exactly one response batch of exactly N entries whose id/name
pairs match the requests in order, whatever the request names are. -/
theorem tool_call_batch_sequential_and_matching (sensor : SensorOutcome)
    (fcs : List FunctionCall) (st : SessionState) :
    (handleToolCall sensor fcs st).2.length = fcs.length ∧
    (handleToolCall sensor fcs st).2.map (fun r => (r.id, r.name)) =
      fcs.map (fun fc => (fc.id, fc.name)) ∧
    (handleToolCall sensor fcs st).1 =
      fcs.foldl (fun s fc => (executeTool sensor fc.name fc.args s).1) st := by
  induction fcs generalizing st with
  | nil => exact ⟨rfl, rfl, rfl⟩
  | cons fc rest ih =>
    obtain ⟨hlen, hmap, hst⟩ := ih (executeTool sensor fc.name fc.args st).1
    refine ⟨?_, ?_, ?_⟩ <;> simp [handleToolCall, hlen, hmap, hst]

/-- The inbound batch `[{id:"1", name:"toggleFlashlight", args:{state:true}}]`. -/
def flashCall : FunctionCall :=
  { id := "1", name := "toggleFlashlight", args := { state := true } }

/-- C4 counterexample: processing the flashlight batch does NOT produce a
response entry whose `response` field is the bare object
`{status:"Flashlight turned ON"}` — the code wraps the result as
`response: { result: ... }` (`useLiveSession.ts:292`). -/
theorem flashlight_response_is_not_bare_status :
    (handleToolCall .unavailable [flashCall] sampleState).2 ≠
      [{ id := "1", name := "toggleFlashlight",
         response := .bare (.statusMsg "Flashlight turned ON") }] := by
  decide

/-- C4 amended: processing the flashlight batch sets `flashlight` to true and
sends the single response
`{id:"1", name:"toggleFlashlight", response:{result:{status:"Flashlight turned ON"}}}` —
the `response` field wraps the status object in a `result` key. -/
theorem flashlight_scenario :
    (handleToolCall .unavailable [flashCall] sampleState).1.systemState.flashlight = true ∧
    (handleToolCall .unavailable [flashCall] sampleState).2 =
      [{ id := "1", name := "toggleFlashlight",
         response := .wrapped (.statusMsg "Flashlight turned ON") }] := by
  decide

/-- When every chunk of a sequence is handled while the output clock reads
`now` and the cursor already sits at or beyond the clock, the scheduled start
times chain from the cursor with no gap and no overlap. -/
theorem scheduleSeq_starts_of_clock_le (now : ℚ) (ds : List ℚ) (k : Nat)
    (st : SessionState) (hn : now ≤ st.nextStartTime) (hd : ∀ d ∈ ds, 0 ≤ d) :
    (scheduleSeq now ds k st).1 = expectedStarts st.nextStartTime ds := by
  induction ds generalizing k st with
  | nil => rfl
  | cons d rest ih =>
    have hd0 : 0 ≤ d := hd d (List.mem_cons_self d rest)
    have hmax : max st.nextStartTime now = st.nextStartTime := max_eq_left hn
    have hrest := ih (k + 1)
      { st with nextStartTime := max st.nextStartTime now + d,
                activeSources := st.activeSources ++ [k] }
      (by simpa [hmax] using le_trans hn (le_add_of_nonneg_right hd0))
      (fun e he => hd e (List.mem_cons_of_mem d he))
    simp [scheduleSeq, scheduleAudioChunk, expectedStarts, hmax] at hrest ⊢
    exact hrest

/-- C1: each inbound audio chunk is scheduled at `max(nextStartTime,
outputClockNow)` and afterwards `nextStartTime` is advanced by exactly the
decoded buffer's duration; consequently, a sequence of chunks of nonnegative
durations d1..dn all handled while the output clock reads `t0`, starting from
a cursor at or before `t0` and with no interruption, is scheduled at
t0, t0+d1, t0+d1+d2, … — gapless and without overlap. -/
theorem audio_chunks_gapless_scheduling :
    (∀ (now dur : ℚ) (srcId : Nat) (st : SessionState),
       (scheduleAudioChunk now dur srcId st).1 = max st.nextStartTime now ∧
       (scheduleAudioChunk now dur srcId st).2.nextStartTime =
         (scheduleAudioChunk now dur srcId st).1 + dur) ∧
    (∀ (t0 : ℚ) (ds : List ℚ) (k : Nat) (st : SessionState),
       st.nextStartTime ≤ t0 → (∀ d ∈ ds, 0 ≤ d) →
       (scheduleSeq t0 ds k st).1 = expectedStarts t0 ds) := by
  constructor
  · intro now dur srcId st
    exact ⟨rfl, rfl⟩
  · intro t0 ds k st hle hd
    cases ds with
    | nil => rfl
    | cons d rest =>
      have hd0 : 0 ≤ d := hd d (List.mem_cons_self d rest)
      have hmax : max st.nextStartTime t0 = t0 := max_eq_right hle
      have hle' : t0 ≤ max st.nextStartTime t0 + d := by
        rw [hmax]; exact le_add_of_nonneg_right hd0
      have hrest := scheduleSeq_starts_of_clock_le t0 rest (k + 1)
        { st with nextStartTime := max st.nextStartTime t0 + d,
                  activeSources := st.activeSources ++ [k] }
        hle'
        (fun e he => hd e (List.mem_cons_of_mem d he))
      simp [scheduleSeq, scheduleAudioChunk, expectedStarts, hmax] at hrest ⊢
      exact hrest

/-- Witness for C1: two chunks of 0.5 s each arriving with the output clock at
10.0 and the cursor at 0 are scheduled at 10.0 and 10.5 (the §8 scenario). -/
theorem audio_chunks_gapless_scheduling_witness :
    sampleState.nextStartTime ≤ 10 ∧
    (scheduleSeq 10 [1/2, 1/2] 0 sampleState).1 = expectedStarts 10 [1/2, 1/2] ∧
    expectedStarts 10 [1/2, 1/2] = [10, 21/2] :=
  ⟨by norm_num [sampleState],
   audio_chunks_gapless_scheduling.2 10 [1/2, 1/2] 0 sampleState
     (by norm_num [sampleState]) (by norm_num),
   by norm_num [expectedStarts]⟩

/-- Truncation toward zero differs from its argument by less than 1. -/
theorem truncQ_close (q : ℚ) : |(truncQ q : ℚ) - q| < 1 := by
  unfold truncQ
  split_ifs with h
  · have h1 : (⌊-q⌋ : ℚ) ≤ -q := Int.floor_le (-q)
    have h2 : -q < ⌊-q⌋ + 1 := Int.lt_floor_add_one (-q)
    rw [abs_lt]
    push_cast
    constructor <;> linarith
  · have h1 : (⌊q⌋ : ℚ) ≤ q := Int.floor_le q
    have h2 : q < ⌊q⌋ + 1 := Int.lt_floor_add_one q
    rw [abs_lt]
    constructor <;> linarith

/-- Truncation toward zero of a rational in the signed 16-bit range stays in
the signed 16-bit range. -/
theorem truncQ_range (q : ℚ) (h1 : -32768 ≤ q) (h2 : q ≤ 32767) :
    -32768 ≤ truncQ q ∧ truncQ q ≤ 32767 := by
  unfold truncQ
  split_ifs with h
  · have hnn : (0 : ℤ) ≤ ⌊-q⌋ := Int.floor_nonneg.mpr (by linarith)
    have hub : ⌊-q⌋ ≤ 32768 := by
      have := Int.floor_mono (show -q ≤ ((32768 : ℤ) : ℚ) by push_cast; linarith)
      simpa using this
    omega
  · have hnn : (0 : ℤ) ≤ ⌊q⌋ := Int.floor_nonneg.mpr (by linarith)
    have hub : ⌊q⌋ ≤ 32767 := by
      have := Int.floor_mono (show q ≤ ((32767 : ℤ) : ℚ) by push_cast; linarith)
      simpa using this
    omega

/-- The 16-bit wrap is the identity on values already in [-32768, 32767]. -/
theorem int16_wrap_id (n : ℤ) (h1 : -32768 ≤ n) (h2 : n ≤ 32767) :
    (n + 32768) % 65536 - 32768 = n := by omega

/-- On rationals in the signed 16-bit range, `toInt16` is truncation toward
zero. -/
theorem toInt16_eq_truncQ (q : ℚ) (h1 : -32768 ≤ q) (h2 : q ≤ 32767) :
    toInt16 q = truncQ q := by
  obtain ⟨hl, hr⟩ := truncQ_range q h1 h2
  unfold toInt16
  exact int16_wrap_id _ hl hr

/-- C5: the per-sample PCM conversion clamps to [-1,1] first (so any input is
converted exactly like its clamped value), scales a negative clamped sample by
32768 and a non-negative one by 32767; -1 maps to -32768 and 1 to 32767, and
for any input already in [-1,1] the stored integer differs from the exact
scaled value by less than one quantization step. -/
theorem pcm_conversion :
    pcmConvertSample (-1) = -32768 ∧
    pcmConvertSample 1 = 32767 ∧
    (∀ x : ℚ, pcmConvertSample x = pcmConvertSample (max (-1) (min 1 x))) ∧
    (∀ x : ℚ, -1 ≤ x → x ≤ 1 →
       |(pcmConvertSample x : ℚ) - (if x < 0 then x * 32768 else x * 32767)| < 1) := by
  have hfloor : ∀ n : ℤ, truncQ ((n : ℚ)) = n := by
    intro n
    unfold truncQ
    split_ifs with h
    · rw [← Int.cast_neg, Int.floor_intCast]; ring
    · rw [Int.floor_intCast]
  refine ⟨?_, ?_, ?_, ?_⟩
  · have harg : (if max (-1) (min 1 (-1 : ℚ)) < 0 then max (-1) (min 1 (-1 : ℚ)) * 32768
        else max (-1) (min 1 (-1 : ℚ)) * 32767) = ((-32768 : ℤ) : ℚ) := by
      rw [min_eq_right (by norm_num : (-1 : ℚ) ≤ 1), max_self,
        if_pos (by norm_num : (-1 : ℚ) < 0)]
      push_cast
      ring
    show toInt16 (if max (-1) (min 1 (-1 : ℚ)) < 0 then max (-1) (min 1 (-1 : ℚ)) * 32768
        else max (-1) (min 1 (-1 : ℚ)) * 32767) = -32768
    rw [harg]
    unfold toInt16
    rw [hfloor]
    decide
  · have harg : (if max (-1) (min 1 (1 : ℚ)) < 0 then max (-1) (min 1 (1 : ℚ)) * 32768
        else max (-1) (min 1 (1 : ℚ)) * 32767) = ((32767 : ℤ) : ℚ) := by
      rw [min_self, max_eq_right (by norm_num : (-1 : ℚ) ≤ 1),
        if_neg (by norm_num : ¬ (1 : ℚ) < 0)]
      push_cast
      ring
    show toInt16 (if max (-1) (min 1 (1 : ℚ)) < 0 then max (-1) (min 1 (1 : ℚ)) * 32768
        else max (-1) (min 1 (1 : ℚ)) * 32767) = 32767
    rw [harg]
    unfold toInt16
    rw [hfloor]
    decide
  · intro x
    have h1 : -1 ≤ max (-1) (min 1 x) := le_max_left _ _
    have h2 : max (-1) (min 1 x) ≤ 1 := max_le (by norm_num) (min_le_left _ _)
    unfold pcmConvertSample
    rw [min_eq_right h2, max_eq_right h1]
  · intro x hx1 hx2
    have hclamp : max (-1) (min 1 x) = x := by
      rw [min_eq_right hx2, max_eq_right hx1]
    have hq1 : -32768 ≤ (if x < 0 then x * 32768 else x * 32767) := by
      split_ifs with h <;> nlinarith
    have hq2 : (if x < 0 then x * 32768 else x * 32767) ≤ 32767 := by
      split_ifs with h <;> nlinarith
    have heq : pcmConvertSample x = truncQ (if x < 0 then x * 32768 else x * 32767) := by
      unfold pcmConvertSample
      rw [hclamp]
      exact toInt16_eq_truncQ _ hq1 hq2
    rw [heq]
    exact truncQ_close _

/-- Witness for C5 at the concrete sample 1/2: in range, converted to 16383,
within one quantization step of the exact value 16383.5. -/
theorem pcm_conversion_witness :
    (-1 : ℚ) ≤ 1/2 ∧ (1/2 : ℚ) ≤ 1 ∧
    |((pcmConvertSample (1/2) : ℚ)) -
        (if (1/2 : ℚ) < 0 then (1/2 : ℚ) * 32768 else (1/2 : ℚ) * 32767)| < 1 ∧
    pcmConvertSample (1/2) = 16383 := by
  refine ⟨by norm_num, by norm_num,
    pcm_conversion.2.2.2 (1/2) (by norm_num) (by norm_num), ?_⟩
  have hmax : max (-1 : ℚ) (min 1 (1/2)) = 1/2 := by norm_num
  have hfl : ⌊(32767 / 2 : ℚ)⌋ = 16383 := by
    rw [Int.floor_eq_iff]
    constructor <;> norm_num
  unfold pcmConvertSample toInt16 truncQ
  rw [hmax]
  norm_num [hfl]
